import Mathlib

/-!
Shallow embedding of `src/lib/connection.js` of `signalk-js-client`
(the `Connection` class: connection lifecycle manager for a Signal K
server), together with theorems settling the specification claims.

JavaScript values that flow through the manager (message frames, login
responses, the stored token) are modelled by the inductive `JSValue`;
machine state is the structure `Conn`, one field per instance property
assigned by the class; event emission and asynchronous effects (socket
open/close, login) are made explicit as lists of `Event` / `Action`
returned by each step function.
-/

namespace SignalK

/-- Model of a JavaScript value as delivered by `JSON.parse` / held in
instance fields: `undefined`, `null`, booleans, (integer) numbers,
strings, arrays and plain objects (association lists, insertion order). -/
inductive JSValue : Type where
  | undefined : JSValue
  | null : JSValue
  | bool : Bool → JSValue
  | num : Int → JSValue
  | str : String → JSValue
  | arr : List JSValue → JSValue
  | obj : List (String × JSValue) → JSValue
deriving Repr

/-- Property access `v.k` on a modelled value: objects look the key up
(first binding wins, as in a JS object literal); every non-object access
yields `undefined` (the one call site reading a property off a possibly
non-object value is guarded to objects in the source). -/
def jsGet (v : JSValue) (k : String) : JSValue :=
  match v with
  | .obj fields =>
    match fields.lookup k with
    | some w => w
    | none => .undefined
  | _ => .undefined

/-- Test for `hasOwnProperty(k)` on a modelled value: only objects own
named keys (a JS array owns only index keys, which never collide with the
names probed by the source). -/
def jsHasOwn (v : JSValue) (k : String) : Bool :=
  match v with
  | .obj fields => (fields.lookup k).isSome
  | _ => false

/-- Test whether a value is exactly JS `null` (the source compares with
strict `!== null`, under which `undefined` does NOT equal `null`). -/
def jsIsNull : JSValue → Bool
  | .null => true
  | _ => false

/-- Test whether a value is exactly JS `undefined`. -/
def jsIsUndefined : JSValue → Bool
  | .undefined => true
  | _ => false

/-- Strict comparison `v === true` as used by the source (only the
boolean `true` passes). -/
def jsStrictEqTrue : JSValue → Bool
  | .bool b => b
  | _ => false

/-- Truthy object test `data && typeof data === 'object'`: `null` is
falsy, arrays and plain objects have typeof `object`; everything else
fails one of the two conjuncts. -/
def jsIsObjectLike : JSValue → Bool
  | .obj _ => true
  | .arr _ => true
  | _ => false

/-- String coercion of a modelled value, as performed by JS template
literals and `String(...)`. -/
def jsToString : JSValue → String
  | .undefined => "undefined"
  | .null => "null"
  | .bool b => cond b "true" "false"
  | .num n => toString n
  | .str s => s
  | .arr _ => ""
  | .obj _ => "[object Object]"

/-- Escape of one character inside a JSON string literal, per
`JSON.stringify`. -/
def jsonEscapeChar (c : Char) : String :=
  if c = '"' then "\\\""
  else if c = '\\' then "\\\\"
  else if c = '\n' then "\\n"
  else if c = '\r' then "\\r"
  else if c = '\t' then "\\t"
  else String.singleton c

/-- JSON string literal for `s` (double quotes around the escaped body). -/
def jsonQuote (s : String) : String :=
  "\"" ++ String.join (s.data.map jsonEscapeChar) ++ "\""

mutual

/-- Model of `JSON.stringify` on a modelled value. A top-level
`undefined` has no JSON text in JS (the call returns `undefined`); the
source only ever stringifies object-like values, so that case is
unreachable and mapped to `"null"` here. -/
def jsonStringify : JSValue → String
  | .undefined => "null"
  | .null => "null"
  | .bool b => cond b "true" "false"
  | .num n => toString n
  | .str s => jsonQuote s
  | .arr xs => "[" ++ String.intercalate "," (jsonStringifyArr xs) ++ "]"
  | .obj fs => "\x7b" ++ String.intercalate "," (jsonStringifyObj fs) ++ "\x7d"

/-- Array elements of `JSON.stringify` output: `undefined` elements
serialize as `null`. -/
def jsonStringifyArr : List JSValue → List String
  | [] => []
  | x :: xs =>
    (match x with
     | .undefined => "null"
     | v => jsonStringify v) :: jsonStringifyArr xs

/-- Object members of `JSON.stringify` output: members whose value is
`undefined` are skipped. -/
def jsonStringifyObj : List (String × JSValue) → List String
  | [] => []
  | (k, v) :: fs =>
    match v with
    | .undefined => jsonStringifyObj fs
    | v => (jsonQuote k ++ ":" ++ jsonStringify v) :: jsonStringifyObj fs

end

/-- Opening-brace character of a JSON object (code point 0x7b). -/
def braceOpen : Char := Char.ofNat 0x7b

/-- Closing-brace character of a JSON object (code point 0x7d). -/
def braceClose : Char := Char.ofNat 0x7d

/-- JSON insignificant whitespace. -/
def isJsonWs (c : Char) : Bool :=
  c = ' ' || c = '\t' || c = '\n' || c = '\r'

/-- Drop leading JSON whitespace. -/
def skipWs (cs : List Char) : List Char :=
  cs.dropWhile isJsonWs

/-- Decode the character after a backslash in a JSON string literal.
Handles the common escapes; `\uXXXX` escapes are outside the modelled
domain (no claim feeds one). -/
def unescapeChar (e : Char) : Option Char :=
  if e = '"' ∨ e = '\\' ∨ e = '/' then some e
  else if e = 'n' then some '\n'
  else if e = 'r' then some '\r'
  else if e = 't' then some '\t'
  else none

/-- Body of a JSON string literal, after the opening quote: returns the
decoded characters and the input following the closing quote. -/
def parseStrAux : List Char → List Char → Option (String × List Char)
  | [], _ => none
  | c :: rest, acc =>
    if c = '"' then some (String.mk acc.reverse, rest)
    else if c = '\\' then
      match rest with
      | [] => none
      | e :: rest' =>
        match unescapeChar e with
        | some ch => parseStrAux rest' (ch :: acc)
        | none => none
    else parseStrAux rest (c :: acc)

/-- Consume a run of decimal digits onto an accumulator, returning the
value and the rest of the input. -/
def takeDigits : List Char → Nat → Nat × List Char
  | [], acc => (acc, [])
  | c :: rest, acc =>
    if c.isDigit then takeDigits rest (acc * 10 + (c.toNat - '0'.toNat))
    else (acc, c :: rest)

/-- Parse a JSON integer (optional minus sign, then at least one digit).
Fractions and exponents are outside the modelled domain: the source
never feeds a non-integer number through any path a claim touches. -/
def parseIntLit : List Char → Option (Int × List Char)
  | '-' :: c :: rest =>
    if c.isDigit then
      let (n, rest') := takeDigits rest (c.toNat - '0'.toNat)
      some (-(n : Int), rest')
    else none
  | c :: rest =>
    if c.isDigit then
      let (n, rest') := takeDigits rest (c.toNat - '0'.toNat)
      some ((n : Int), rest')
    else none
  | [] => none

/-- Strip a literal keyword from the front of the input, when present. -/
def stripLit (kw : String) (cs : List Char) : Option (List Char) :=
  if kw.data.isPrefixOf cs then some (cs.drop kw.length) else none

mutual

/-- Fuel-indexed recursive-descent JSON value parser (model of the
runtime primitive `JSON.parse`); fuel `input length + 1` always
suffices since every nested value consumes at least one character. -/
def parseVal : Nat → List Char → Option (JSValue × List Char)
  | 0, _ => none
  | Nat.succ fuel, cs =>
    match skipWs cs with
    | [] => none
    | c :: rest =>
      if c = '"' then
        match parseStrAux rest [] with
        | some (s, rest') => some (.str s, rest')
        | none => none
      else if c = '[' then
        match skipWs rest with
        | ']' :: rest' => some (.arr [], rest')
        | other =>
          match parseElems fuel other with
          | some (xs, rest') => some (.arr xs, rest')
          | none => none
      else if c = braceOpen then
        match skipWs rest with
        | [] => none
        | c' :: rest' =>
          if c' = braceClose then some (.obj [], rest')
          else
            match parseMembers fuel (c' :: rest') with
            | some (fs, rest'') => some (.obj fs, rest'')
            | none => none
      else
        match stripLit "null" (c :: rest) with
        | some r => some (.null, r)
        | none =>
          match stripLit "true" (c :: rest) with
          | some r => some (.bool true, r)
          | none =>
            match stripLit "false" (c :: rest) with
            | some r => some (.bool false, r)
            | none =>
              match parseIntLit (c :: rest) with
              | some (n, rest') => some (.num n, rest')
              | none => none

/-- Comma-separated array elements, up to (and consuming) the closing
bracket. -/
def parseElems : Nat → List Char → Option (List JSValue × List Char)
  | 0, _ => none
  | Nat.succ fuel, cs =>
    match parseVal fuel cs with
    | some (v, rest) =>
      (match skipWs rest with
       | ',' :: rest' =>
         match parseElems fuel rest' with
         | some (vs, rest'') => some (v :: vs, rest'')
         | none => none
       | ']' :: rest' => some ([v], rest')
       | _ => none)
    | none => none

/-- Comma-separated object members, up to (and consuming) the closing
brace. -/
def parseMembers : Nat → List Char → Option (List (String × JSValue) × List Char)
  | 0, _ => none
  | Nat.succ fuel, cs =>
    match skipWs cs with
    | '"' :: rest =>
      (match parseStrAux rest [] with
       | some (k, rest') =>
         (match skipWs rest' with
          | ':' :: rest'' =>
            (match parseVal fuel rest'' with
             | some (v, rest3) =>
               (match skipWs rest3 with
                | ',' :: rest4 =>
                  (match parseMembers fuel rest4 with
                   | some (fs, rest5) => some ((k, v) :: fs, rest5)
                   | none => none)
                | c :: rest4 =>
                  if c = braceClose then some ([(k, v)], rest4) else none
                | [] => none)
             | none => none)
          | _ => none)
       | none => none)
    | _ => none

end

/-- Model of `JSON.parse(s)`: parse one value and require only
whitespace to remain. -/
def jsonParse (s : String) : Option JSValue :=
  match parseVal (s.length + 1) s.data with
  | some (v, rest) => if (skipWs rest).isEmpty then some v else none
  | none => none

/-- Lines 216–222 and 266–272 of the source: when the incoming datum is
a string, try to `JSON.parse` it, keeping the raw string when parsing
fails (the catch branch only logs). Non-strings pass through. -/
def parseIfString (d : JSValue) : JSValue :=
  match d with
  | .str s =>
    match jsonParse s with
    | some v => v
    | none => .str s
  | _ => d

/-- Model of JS `haystack.includes(needle)` on the character lists. -/
def listContainsSub : List Char → List Char → Bool
  | [], pat => pat.isEmpty
  | c :: rest, pat => pat.isPrefixOf (c :: rest) || listContainsSub rest pat

/-- Replace the first occurrence of `pat` in the list (model of JS
`String.prototype.replace` with a string pattern). -/
def replaceFirstAux : List Char → List Char → List Char → List Char
  | [], _, _ => []
  | c :: rest, pat, repl =>
    if pat.isPrefixOf (c :: rest) then repl ++ (c :: rest).drop pat.length
    else c :: replaceFirstAux rest pat repl

/-- JS `s.includes(pat)`. -/
def strIncludes (s pat : String) : Bool :=
  listContainsSub s.data pat.data

/-- JS `s.replace(pat, repl)` (first occurrence only). -/
def strReplaceFirst (s pat repl : String) : String :=
  String.mk (replaceFirstAux s.data pat.data repl.data)

/-- Connection options, supplied at construction and never mutated
(spec §3). Field `bearerTokenDefault` models the source option named
`bearerTokenPrefix` (constructor line 30); `none` models an absent
option. The JS `||` default also replaces an empty string. -/
structure Options : Type where
  hostname : String
  port : Nat
  useTLS : Bool
  version : String
  useAuthentication : Bool
  reconnect : Bool
  maxRetries : Nat
  bearerTokenDefault : Option String
  username : Option String
  password : Option String
deriving Repr

/-- Default token-type label: source line 30,
`this.options.bearerTokenPrefix || 'Bearer'` (JS `||` takes the
fallback for `undefined` and for the empty string, both falsy). -/
def defaultTokenKind (o : Options) : String :=
  match o.bearerTokenDefault with
  | some s => if s = "" then "Bearer" else s
  | none => "Bearer"

/-- Stored credential `this._token` (lines 41–44): `kind` is always a
string in the source; `token` is stored raw from the login response, so
it is kept as a `JSValue`. -/
structure Credential : Type where
  kind : String
  token : JSValue
deriving Repr

/-- Line 74–91, method `buildURI(protocol)`: pure address builder. The
`let` chain mirrors the successive `uri +=` statements. -/
def buildURI (o : Options) (protocol : String) : String :=
  let uri := if o.useTLS = true then protocol ++ "s://" else protocol ++ "://"
  let uri := uri ++ o.hostname
  let uri := uri ++ (if o.port = 80 then "" else ":" ++ toString o.port)
  let uri := uri ++ "/signalk/"
  let uri := uri ++ o.version
  let uri := if protocol = "ws" then uri ++ "/stream?subscribe=none" else uri
  let uri := if protocol = "http" then uri ++ "/api" else uri
  uri

/-- Transport kinds in the spec's wording for the URI builder (spec
§4.1): `stream` is served by the ws protocol, `request` by http. -/
inductive TransportKind : Type where
  | stream : TransportKind
  | request : TransportKind
deriving Repr, DecidableEq

/-- Spec-worded URI builder, for comparison with `buildURI` (claim C8):
scheme is wss/https when TLS is enabled and ws/http otherwise; the port
suffix is omitted exactly when the port equals 80; the path is
`/signalk/<version>`, suffixed with the streaming-mode query parameter
for the stream kind or the `/api` segment for the request kind. -/
def specURI (o : Options) (k : TransportKind) : String :=
  let scheme :=
    match k with
    | .stream => if o.useTLS = true then "wss://" else "ws://"
    | .request => if o.useTLS = true then "https://" else "http://"
  let portSuffix := if o.port = 80 then "" else ":" ++ toString o.port
  let tail :=
    match k with
    | .stream => "/stream?subscribe=none"
    | .request => "/api"
  scheme ++ o.hostname ++ portSuffix ++ "/signalk/" ++ o.version ++ tail

/-- Machine state of a `Connection` instance: one field per instance
property assigned by the class (constructor lines 20–46 and the methods).
`socket : Option Unit` models the stream handle (`null` vs an open
WebSocket object); `_connection` and `_self` hold modelled JS values;
`listenersReleased` models whether `removeAllListeners()` has been
called on the emitter (line 209). The bound handler fields
`onWSMessage` … (lines 36–39) carry no state and are not represented. -/
structure Conn : Type where
  options : Options
  httpURI : String
  wsURI : String
  shouldDisconnect : Bool
  connected : Bool
  socket : Option Unit
  lastMessage : Int
  isConnecting : Bool
  _fetchReady : Bool
  _bearerTokenDefault : String
  _authenticated : Bool
  _retries : Nat
  _connection : JSValue
  _self : JSValue
  _token : Credential
  listenersReleased : Bool
deriving Repr

/-- Constructor field initialization (lines 20–44), before the
`this.reconnect(true)` call on line 46. The field `_bearerTokenDefault`
models the source field named `_bearerTokenPrefix`. -/
def initConn (o : Options) : Conn where
  options := o
  httpURI := buildURI o "http"
  wsURI := buildURI o "ws"
  shouldDisconnect := false
  connected := false
  socket := none
  lastMessage := -1
  isConnecting := false
  _fetchReady := false
  _bearerTokenDefault := defaultTokenKind o
  _authenticated := false
  _retries := 0
  _connection := .null
  _self := .str ""
  _token := { kind := "", token := .str "" }
  listenersReleased := false

/-- Property names defined on a `Connection` instance or its prototype:
every `this.x = …` assignment in the class body (constructor lines
20–44, plus `lastMessage` in `_onWSMessage`), the accessor properties
`self` and `connectionInfo` (lines 49–72), and the methods. The names
`fetchReady` and `useAuthentication` are NOT among them: `state()` reads
`this.fetchReady` while the flag is stored as `_fetchReady`, and
`send()` reads `this.useAuthentication` while the flag lives on
`this.options`. -/
def definedProps : List String :=
  ["options", "httpURI", "wsURI", "shouldDisconnect", "connected",
   "socket", "lastMessage", "isConnecting", "_fetchReady",
   "_bearerTokenPrefix", "_authenticated", "_retries", "_connection",
   "_self", "_token", "onWSMessage", "onWSOpen", "onWSClose", "onWSError",
   "self", "connectionInfo", "buildURI", "state", "disconnect",
   "reconnect", "setAuthenticated", "initiateSocket", "cleanupListeners",
   "_onWSMessage", "_onWSOpen", "_onWSError", "_onWSClose", "send",
   "fetch"]

/-- Property read `this.fetchReady` performed by `state()` (line 97): if
the name were a defined property it would denote the readiness flag, but
it is not, so the read yields `undefined`. -/
def readFetchReadyProp (c : Conn) : JSValue :=
  if "fetchReady" ∈ definedProps then .bool c._fetchReady else .undefined

/-- Property read `this.useAuthentication` performed by `send()` (line
278): if the name were a defined property it would denote the configured
flag, but the flag lives on `this.options`, so the read yields
`undefined`. -/
def readUseAuthenticationProp (c : Conn) : JSValue :=
  if "useAuthentication" ∈ definedProps then .bool c.options.useAuthentication
  else .undefined

/-- Result object of `state()` (lines 93–99). -/
structure StateView : Type where
  connecting : Bool
  connected : Bool
  ready : JSValue
deriving Repr

/-- Method `state()` (lines 93–99): note `ready` is the (undefined)
property `this.fetchReady`, not the stored flag `this._fetchReady`. -/
def state (c : Conn) : StateView where
  connecting := c.isConnecting
  connected := c.connected
  ready := readFetchReadyProp c

/-- Options record handed to the request transport by `fetch` (fields
the source reads or writes); `none` models an absent JS property. -/
structure FetchOpts : Type where
  method : Option String := none
  headers : Option (List (String × String)) := none
  body : Option String := none
  credentials : Option String := none
  mode : Option String := none
deriving Repr

/-- Property update on a JS object modelled as an association list
(assignment and spread-with-override semantics): an existing binding
for `k` keeps its position and takes the value `v`; otherwise `(k, v)`
is appended. -/
def jsObjSet [DecidableEq α] (l : List (α × β)) (k : α) (v : β) :
    List (α × β) :=
  if (l.map Prod.fst).contains k then
    l.map fun q => if q.1 = k then (k, v) else q
  else l ++ [(k, v)]

/-- Default headers installed by `fetch` when the caller supplied none
(lines 305–310). -/
def defaultHeaders : List (String × String) :=
  [("Accept", "application/json"), ("Content-Type", "application/json")]

/-- Outgoing unary request assembled by `fetch` before it is handed to
the runtime request primitive: final address and options. -/
structure FetchCall : Type where
  uri : String
  opts : FetchOpts
deriving Repr

/-- Leading-slash normalization of `fetch` (lines 295–297):
`path.charAt(0) !== '/'` prepends a `/` (for the empty string,
`charAt(0)` is `""`, which also differs from `'/'`). -/
def normalizePath (path : String) : String :=
  if path.data.head? = some '/' then path else "/" ++ path

/-- Method `fetch(path, opts)` (lines 294–341), up to the point where
the request primitive is invoked: path normalization, option and header
defaulting, Authorization enrichment when authenticated and the path
does not contain `auth/login`, address composition and the three
endpoint-specific rewrites. The response half (status check and body
decoding, lines 342–355) happens in the runtime continuation and is not
needed by any claim. -/
def fetchCall (c : Conn) (path : String) (opts? : Option FetchOpts) :
    FetchCall :=
  let path := normalizePath path
  let opts := match opts? with
    | some o => o
    | none => { method := some "GET" }
  let opts := match opts.headers with
    | some _ => opts
    | none => { opts with headers := some defaultHeaders }
  let opts :=
    if c._authenticated = true ∧ strIncludes path "auth/login" = false then
      { opts with
        headers := some (jsObjSet ((opts.headers).getD [])
          "Authorization" (c._token.kind ++ " " ++ jsToString c._token.token))
        credentials := some "same-origin"
        mode := some "cors" }
    else opts
  let uri := c.httpURI ++ path
  let uri := if strIncludes uri "/api/auth/login" = true then
    strReplaceFirst uri "/api/auth/login" "/auth/login" else uri
  let uri := if strIncludes uri "/api/access/requests" = true then
    strReplaceFirst uri "/api/access/requests" "/access/requests" else uri
  let uri := if strIncludes uri "/signalk/v1/api/security" = true then
    strReplaceFirst uri "/signalk/v1/api/security" "/security" else uri
  { uri := uri, opts := opts }

/-- Value of a header in an assembled request, if present. -/
def lookupHeader (fc : FetchCall) (k : String) : Option String :=
  match fc.opts.headers with
  | some hs => hs.lookup k
  | none => none

/-- Signals emitted on the event emitter (`this.emit(...)` calls),
with the payloads the claims inspect. -/
inductive Event : Type where
  | connectE : Event
  | disconnectE : Event
  | errorE : Event
  | messageE : JSValue → Event
  | selfE : JSValue → Event
  | connectionInfoE : JSValue → Event
  | fetchReadyE : Event
  | hitMaxRetriesE : Event
deriving Repr

/-- Asynchronous effects requested from the runtime: closing the live
socket (`this.socket.close()`), opening a new stream
(`new WebSocket(...)` in `initiateSocket`), or issuing the login
request (`this.fetch('/auth/login', ...)`). The corresponding
completions are delivered later as driver steps. -/
inductive Action : Type where
  | closeSocket : Action
  | openSocket : Action
  | loginCall : FetchCall → Action
deriving Repr

/-- Result of one synchronous execution step: the new machine state,
the signals emitted (in order), and the asynchronous effects
requested (in order). -/
structure StepOut : Type where
  s : Conn
  evs : List Event
  acts : List Action
deriving Repr

/-- Method `cleanupListeners()` (lines 201–210): reset authentication
and release every listener. -/
def cleanupListeners (c : Conn) : Conn :=
  { c with
    _authenticated := false
    _token := { kind := "", token := .str "" }
    listenersReleased := true }

/-- Setter `self` (lines 49–55): emit `self` unless the datum is
strictly `null`, then store it. -/
def setSelf (c : Conn) (data : JSValue) : Conn × List Event :=
  let evs := if jsIsNull data = true then [] else [Event.selfE data]
  ({ c with _self := data }, evs)

/-- Setter `connectionInfo` (lines 61–68): emit `connectionInfo` unless
the datum is strictly `null`, store it wholesale, then run the `self`
setter on `data.self`. -/
def setConnectionInfo (c : Conn) (data : JSValue) : Conn × List Event :=
  let evs1 := if jsIsNull data = true then [] else [Event.connectionInfoE data]
  let c := { c with _connection := data }
  let (c, evs2) := setSelf c (jsGet data "self")
  (c, evs1 ++ evs2)

/-- Model of JS `String.prototype.trim`: strip leading and trailing
whitespace. -/
def jsTrim (s : String) : String :=
  String.mk (((s.data.dropWhile Char.isWhitespace).reverse.dropWhile
    Char.isWhitespace).reverse)

/-- Request options built for the login exchange (lines 149–157). -/
def authRequest (o : Options) : FetchOpts where
  method := some "POST"
  mode := some "cors"
  credentials := some "same-origin"
  body := some (jsonStringify (.obj
    [("username", .str (o.username.getD "")),
     ("password", .str (o.password.getD ""))]))

/-- Method `reconnect(initial = false)` (lines 107–182). Guards in
source order: re-entrancy (`isConnecting`), live socket (close it and
return), retry exhaustion (exact equality against `maxRetries`,
non-initial only), configured `reconnect === false`, sticky disconnect
intent; then mark connecting and either open the stream directly
(authentication disabled) or issue the login request, whose
continuations are `loginResolve` / `loginReject`. -/
def reconnect (c : Conn) (initial : Bool) : StepOut :=
  if c.isConnecting = true then { s := c, evs := [], acts := [] }
  else if c.socket.isSome then
    { s := c, evs := [], acts := [.closeSocket] }
  else if initial ≠ true ∧ c._retries = c.options.maxRetries then
    { s := cleanupListeners c, evs := [.hitMaxRetriesE], acts := [] }
  else if initial ≠ true ∧ c.options.reconnect = false then
    { s := cleanupListeners c, evs := [], acts := [] }
  else if initial ≠ true ∧ c.shouldDisconnect = true then
    { s := cleanupListeners c, evs := [], acts := [] }
  else
    let c := { c with
      _fetchReady := false
      shouldDisconnect := false
      isConnecting := true }
    if c.options.useAuthentication = false then
      { s := { c with _fetchReady := true, socket := some () }
        evs := [.fetchReadyE]
        acts := [.openSocket] }
    else
      { s := c, evs := []
        acts := [.loginCall (fetchCall c "/auth/login" (some (authRequest c.options)))] }

/-- Method `disconnect()` (lines 101–105): set the sticky intent and
invoke `reconnect()` (with `initial` defaulted, hence `false`). -/
def disconnect (c : Conn) : StepOut :=
  reconnect { c with shouldDisconnect := true } false

/-- Continuation of a successful login request (lines 160–176): a
response that is not an object owning a `token` key throws, landing in
the catch branch which emits `error` (lines 177–181); otherwise store
the credential (`kind` from a non-empty-after-trim string `type` field,
else the configured default), mark fetch readiness and open the stream. -/
def loginResolve (c : Conn) (result : JSValue) : StepOut :=
  if jsHasOwn result "token" = false then
    { s := c, evs := [.errorE], acts := [] }
  else
    let kind := match jsGet result "type" with
      | .str s => if jsTrim s ≠ "" then s else c._bearerTokenDefault
      | _ => c._bearerTokenDefault
    let c := { c with
      _authenticated := true
      _token := { kind := kind, token := jsGet result "token" }
      _fetchReady := true }
    { s := { c with socket := some () }
      evs := [.fetchReadyE]
      acts := [.openSocket] }

/-- Continuation of a rejected login request (lines 177–181): emit
`error`; the rethrow leaves the machine state untouched. -/
def loginReject (c : Conn) : StepOut :=
  { s := c, evs := [.errorE], acts := [] }

/-- Handler `_onWSOpen` (lines 231–235). -/
def onWSOpen (c : Conn) : StepOut :=
  { s := { c with connected := true, isConnecting := false }
    evs := [.connectE]
    acts := [] }

/-- Handler `_onWSError` (lines 237–242): count the failure, emit
`error`, re-invoke `reconnect()`. -/
def onWSError (c : Conn) : StepOut :=
  let c := { c with _retries := c._retries + 1 }
  let r := reconnect c false
  { s := r.s, evs := Event.errorE :: r.evs, acts := r.acts }

/-- Handler `_onWSClose` (lines 244–258): detach the transport
listeners, clear the live-connection state, count the failure, emit
`disconnect`, re-invoke `reconnect()`. -/
def onWSClose (c : Conn) : StepOut :=
  let c := { c with
    connected := false
    isConnecting := false
    socket := none
    _retries := c._retries + 1 }
  let r := reconnect c false
  { s := r.s, evs := Event.disconnectE :: r.evs, acts := r.acts }

/-- Handler `_onWSMessage` (lines 212–229): record the receipt time,
parse string frames (parse failures keep the raw string), run the
`connectionInfo` setter when the parsed value owns the three handshake
keys, and always emit `message` with the (possibly parsed) payload. -/
def onWSMessage (c : Conn) (now : Int) (rawData : JSValue) : StepOut :=
  let c := { c with lastMessage := now }
  let data := parseIfString rawData
  let isHandshake := jsIsObjectLike data && jsHasOwn data "name"
    && jsHasOwn data "version" && jsHasOwn data "roles"
  let (c, evs) :=
    if isHandshake = true then setConnectionInfo c data else (c, [])
  { s := c, evs := evs ++ [.messageE data], acts := [] }

/-- Outcome of a `send` call: a rejected operation result (the source
returns `Promise.reject`) or a frame handed to the stream transport. -/
inductive SendResult : Type where
  | rejected : String → SendResult
  | sent : JSValue → SendResult
deriving Repr

/-- Method `send(data)` (lines 260–292): reject when not connected or
no stream handle exists; re-parse string payloads; inject the token
only under `this.useAuthentication === true` — a read of a property the
class never defines (see `readUseAuthenticationProp`); serialize
object-like payloads; hand the frame to the socket. The method never
emits a signal. Serialization in the model is total, so the
`Promise.reject(e)` branch of the stringify try/catch (lines 282–288)
has no counterpart. -/
def send (c : Conn) (data : JSValue) : SendResult × List Event :=
  if ¬ (c.connected = true) ∨ c.socket = none then
    (.rejected "Not connected to WebSocket", [])
  else
    let data := parseIfString data
    let isObj := jsIsObjectLike data
    let data :=
      if isObj = true ∧ jsStrictEqTrue (readUseAuthenticationProp c) = true
          ∧ c._authenticated = true then
        match data with
        | .obj fs =>
          JSValue.obj (jsObjSet fs "token" (.str (jsToString c._token.token)))
        | d => d
      else data
    let frame := if isObj = true then JSValue.str (jsonStringify data) else data
    (.sent frame, [])

/-- Constructor (lines 17–47): initialize the fields and run the
initial reconnect. -/
def construct (o : Options) : StepOut :=
  reconnect (initConn o) true

/-- Driver steps: completions of the asynchronous effects (socket
events and login continuations) and the two external calls the claims
exercise. -/
inductive Step : Type where
  | wsOpen : Step
  | wsError : Step
  | wsClose : Step
  | wsMessage : Int → JSValue → Step
  | loginOk : JSValue → Step
  | loginFail : Step
  | callReconnect : Step
  | callDisconnect : Step
deriving Repr

/-- Execute one driver step (an external `reconnect()` call passes no
argument, so `initial` is `undefined`, which is not `true`). -/
def step (c : Conn) : Step → StepOut
  | .wsOpen => onWSOpen c
  | .wsError => onWSError c
  | .wsClose => onWSClose c
  | .wsMessage now d => onWSMessage c now d
  | .loginOk r => loginResolve c r
  | .loginFail => loginReject c
  | .callReconnect => reconnect c false
  | .callDisconnect => disconnect c

/-- Run a list of driver steps, concatenating emitted signals and
requested effects. -/
def run (c : Conn) : List Step → StepOut
  | [] => { s := c, evs := [], acts := [] }
  | st :: rest =>
    let r1 := step c st
    let r2 := run r1.s rest
    { s := r2.s, evs := r1.evs ++ r2.evs, acts := r1.acts ++ r2.acts }

/-- Count of `hitMaxRetries` emissions in a signal trace. -/
def countHitMax (evs : List Event) : Nat :=
  (evs.filter fun e => match e with
    | .hitMaxRetriesE => true
    | _ => false).length

/-- Test whether a trace of effects contains a new connection attempt
(a stream opening or a login issue). -/
def attemptsConnection (acts : List Action) : Bool :=
  acts.any fun a => match a with
    | .openSocket => true
    | .loginCall _ => true
    | .closeSocket => false

/-- Test whether a signal trace contains a `self` emission. -/
def emitsSelf (evs : List Event) : Bool :=
  evs.any fun e => match e with
    | .selfE _ => true
    | _ => false

/-- Concrete option fixture with authentication disabled. -/
def oNoAuth : Options :=
  { hostname := "localhost", port := 3000, useTLS := false, version := "v1"
    useAuthentication := false, reconnect := true, maxRetries := 2
    bearerTokenDefault := none, username := none, password := none }

/-- Concrete option fixture with authentication enabled. -/
def oAuth : Options :=
  { hostname := "localhost", port := 3000, useTLS := false, version := "v1"
    useAuthentication := true, reconnect := true, maxRetries := 3
    bearerTokenDefault := none, username := some "john", password := some "doe" }

/-- Claim C10: for every machine state, the `ready` field of the object
returned by `state()` is `undefined` — in particular never `true` —
because `state()` reads the never-defined property `fetchReady` while
the flag is stored as `_fetchReady`. -/
theorem claim10_theorem : ∀ c : Conn,
    (state c).ready = JSValue.undefined ∧ (state c).ready ≠ JSValue.bool true := by
  intro c
  have h : ¬ ("fetchReady" ∈ definedProps) := by decide
  constructor
  · simp [state, readFetchReadyProp, h]
  · simp [state, readFetchReadyProp, h]

/-- Claim C8: the URI builder is a pure function of the options and the
transport kind, equal to the spec-worded builder `specURI` (scheme
wss/https exactly under TLS, port suffix omitted exactly at port 80,
path `/signalk/<version>` with the stream query or the `/api` segment);
being a total Lean function it has no error conditions. -/
theorem claim8_theorem : ∀ o : Options,
    buildURI o "ws" = specURI o TransportKind.stream ∧
    buildURI o "http" = specURI o TransportKind.request := by
  intro o
  constructor <;>
    · simp only [buildURI, specURI]
      cases o.useTLS <;> by_cases hp : o.port = 80 <;> simp [hp]

/-- Claim C5: every `send()` call made while `connected` is `false` (or
while no stream handle exists) returns the rejected operation result
carrying the not-connected error, throws nothing, and emits no signal. -/
theorem claim5_theorem : ∀ (c : Conn) (d : JSValue),
    c.connected = false ∨ c.socket = none →
    send c d = (SendResult.rejected "Not connected to WebSocket", []) := by
  intro c d h
  have hcond : ¬ (c.connected = true) ∨ c.socket = none := by
    rcases h with h | h
    · exact Or.inl (by simp [h])
    · exact Or.inr h
  unfold send
  rw [if_pos hcond]

/-- Claim C5 witness: a freshly initialized machine is not connected and
`send` of `null` rejects with the not-connected error. -/
theorem claim5_witness :
    ((initConn oNoAuth).connected = false ∨ (initConn oNoAuth).socket = none) ∧
    send (initConn oNoAuth) JSValue.null
      = (SendResult.rejected "Not connected to WebSocket", []) :=
  ⟨Or.inl rfl, claim5_theorem (initConn oNoAuth) JSValue.null (Or.inl rfl)⟩

/-- Claim C3 (code bug exhibit): in a connected, authenticated machine
whose options enable authentication, `send` of the structured payload
`\x7bcmd: "subscribe"\x7d` hands the transport the serialization of the
original payload with NO injected `token` field, because the guard reads
`this.useAuthentication` — a property the class never defines — instead
of `this.options.useAuthentication`. -/
theorem claim3_code_behavior :
    (onWSOpen (loginResolve (construct oAuth).s
        (JSValue.obj [("token", JSValue.str "abc")])).s).s.options.useAuthentication
      = true ∧
    (onWSOpen (loginResolve (construct oAuth).s
        (JSValue.obj [("token", JSValue.str "abc")])).s).s._authenticated = true ∧
    (onWSOpen (loginResolve (construct oAuth).s
        (JSValue.obj [("token", JSValue.str "abc")])).s).s.connected = true ∧
    (onWSOpen (loginResolve (construct oAuth).s
        (JSValue.obj [("token", JSValue.str "abc")])).s).s._token.token
      = JSValue.str "abc" ∧
    readUseAuthenticationProp (onWSOpen (loginResolve (construct oAuth).s
        (JSValue.obj [("token", JSValue.str "abc")])).s).s = JSValue.undefined ∧
    send (onWSOpen (loginResolve (construct oAuth).s
        (JSValue.obj [("token", JSValue.str "abc")])).s).s
        (JSValue.obj [("cmd", JSValue.str "subscribe")])
      = (SendResult.sent (JSValue.str "\x7b\"cmd\":\"subscribe\"\x7d"), []) ∧
    strIncludes "\x7b\"cmd\":\"subscribe\"\x7d" "token" = false :=
  ⟨rfl, rfl, rfl, rfl, rfl, rfl, rfl⟩

/-- Character list of a string with a slash prepended. -/
lemma slash_append_data (p : String) : ("/" ++ p).data = '/' :: p.data := by
  obtain ⟨l⟩ := p
  rfl

/-- Normalization leaves a slash-prepended path unchanged. -/
lemma normalizePath_slash (p : String) : normalizePath ("/" ++ p) = "/" ++ p := by
  unfold normalizePath
  rw [if_pos]
  rw [slash_append_data]
  rfl

/-- Normalization prepends the slash to a path not starting with one. -/
lemma normalizePath_noslash (p : String) (h : p.data.head? ≠ some '/') :
    normalizePath p = "/" ++ p := by
  unfold normalizePath
  rw [if_neg h]

/-- Claim C7: for every path not beginning with a slash, `fetch` of the
path and of its slash-prefixed form assemble the identical outgoing
request (in particular the identical address), for any options. -/
theorem claim7_theorem : ∀ (c : Conn) (p : String) (opts : Option FetchOpts),
    p.data.head? ≠ some '/' →
    fetchCall c p opts = fetchCall c ("/" ++ p) opts := by
  intro c p opts h
  unfold fetchCall
  rw [normalizePath_noslash p h, normalizePath_slash p]

/-- Claim C7 witness: the login path with and without the leading slash
yield the same request, and in particular the same address. -/
theorem claim7_witness :
    ("auth/login" : String).data.head? ≠ some '/' ∧
    fetchCall (initConn oNoAuth) "auth/login" none
      = fetchCall (initConn oNoAuth) ("/" ++ "auth/login") none :=
  ⟨by decide, claim7_theorem (initConn oNoAuth) "auth/login" none (by decide)⟩

/-- An object-like value is not `null`. -/
lemma jsIsNull_of_objectLike (v : JSValue) (h : jsIsObjectLike v = true) :
    jsIsNull v = false := by
  cases v <;> simp [jsIsObjectLike] at h <;> rfl

/-- Claim C6 (amended): when an inbound frame parses to an object owning
the keys `name`, `version` and `roles`, the connection info is replaced
wholesale by the parsed frame, `connectionInfo` is emitted, the
observable `self` field subsequently reads the frame's `self` value, and
`self` is emitted exactly when that value is not strictly `null`
(followed by the unconditional `message` emission). -/
theorem claim6_theorem : ∀ (c : Conn) (now : Int) (d : JSValue),
    jsIsObjectLike (parseIfString d) = true →
    jsHasOwn (parseIfString d) "name" = true →
    jsHasOwn (parseIfString d) "version" = true →
    jsHasOwn (parseIfString d) "roles" = true →
    (onWSMessage c now d).s._connection = parseIfString d ∧
    (onWSMessage c now d).s._self = jsGet (parseIfString d) "self" ∧
    (onWSMessage c now d).evs
      = Event.connectionInfoE (parseIfString d)
        :: ((if jsIsNull (jsGet (parseIfString d) "self") = true then []
             else [Event.selfE (jsGet (parseIfString d) "self")])
          ++ [Event.messageE (parseIfString d)]) := by
  intro c now d hObj hName hVer hRoles
  have hNull := jsIsNull_of_objectLike (parseIfString d) hObj
  unfold onWSMessage setConnectionInfo setSelf
  simp [hObj, hName, hVer, hRoles, hNull]

/-- Claim C6 witness: the spec's handshake frame, delivered as JSON
text, replaces the connection info, sets `self` to the frame's
identifier, and emits `connectionInfo`, `self` and `message`. -/
theorem claim6_witness :
    (jsIsObjectLike (parseIfString (JSValue.str
        "\x7b\"name\":\"signalk\",\"version\":\"1.0\",\"roles\":[\"master\"],\"self\":\"vessels.urn:mrn:imo:mmsi:1234\"\x7d")) = true) ∧
    ((onWSMessage (initConn oNoAuth) 0 (JSValue.str
        "\x7b\"name\":\"signalk\",\"version\":\"1.0\",\"roles\":[\"master\"],\"self\":\"vessels.urn:mrn:imo:mmsi:1234\"\x7d")).s._self
      = JSValue.str "vessels.urn:mrn:imo:mmsi:1234") ∧
    emitsSelf (onWSMessage (initConn oNoAuth) 0 (JSValue.str
        "\x7b\"name\":\"signalk\",\"version\":\"1.0\",\"roles\":[\"master\"],\"self\":\"vessels.urn:mrn:imo:mmsi:1234\"\x7d")).evs = true :=
  ⟨rfl,
   (claim6_theorem (initConn oNoAuth) 0 (JSValue.str
        "\x7b\"name\":\"signalk\",\"version\":\"1.0\",\"roles\":[\"master\"],\"self\":\"vessels.urn:mrn:imo:mmsi:1234\"\x7d")
      rfl rfl rfl rfl).2.1,
   rfl⟩

/-- Claim C6 counterexample: a handshake frame whose `self` value is
`null` owns all three keys, yet the `self` signal is NOT emitted (the
setter guards with strict `!== null`), refuting the unconditional
emission stated by the claim; the stored `self` still reads the frame's
`null`. -/
theorem claim6_counterexample :
    jsHasOwn (JSValue.obj [("name", JSValue.str "signalk"),
        ("version", JSValue.str "1.0"), ("roles", JSValue.arr []),
        ("self", JSValue.null)]) "name" = true ∧
    jsHasOwn (JSValue.obj [("name", JSValue.str "signalk"),
        ("version", JSValue.str "1.0"), ("roles", JSValue.arr []),
        ("self", JSValue.null)]) "version" = true ∧
    jsHasOwn (JSValue.obj [("name", JSValue.str "signalk"),
        ("version", JSValue.str "1.0"), ("roles", JSValue.arr []),
        ("self", JSValue.null)]) "roles" = true ∧
    emitsSelf (onWSMessage (initConn oNoAuth) 0
      (JSValue.obj [("name", JSValue.str "signalk"),
        ("version", JSValue.str "1.0"), ("roles", JSValue.arr []),
        ("self", JSValue.null)])).evs = false ∧
    (onWSMessage (initConn oNoAuth) 0
      (JSValue.obj [("name", JSValue.str "signalk"),
        ("version", JSValue.str "1.0"), ("roles", JSValue.arr []),
        ("self", JSValue.null)])).s._self = JSValue.null :=
  ⟨rfl, rfl, rfl, rfl, rfl⟩

/-- Test from the claim's wording: the response carries a non-empty
string `type` field. -/
def hasNonEmptyStringType (r : JSValue) : Bool :=
  match jsGet r "type" with
  | .str s => s != ""
  | _ => false

/-- Constructed state under enabled authentication: the initial
reconnect stops at the login issue, leaving only `isConnecting` set. -/
lemma construct_s_auth (o : Options) (h : o.useAuthentication = true) :
    (construct o).s = { initConn o with isConnecting := true } := by
  obtain ⟨hn, pt, tls, ver, ua, rc, mr, btd, un, pw⟩ := o
  cases h
  rfl

/-- Looking up the assigned key after a JS property update yields the
assigned value, whatever the base object held. -/
lemma lookup_jsObjSet (l : List (String × β)) (k : String) (v : β) :
    (jsObjSet l k v).lookup k = some v := by
  induction l with
  | nil => simp [jsObjSet]
  | cons q t ih =>
    obtain ⟨a, b⟩ := q
    by_cases hak : a = k
    · subst hak
      rw [jsObjSet, if_pos (by simp)]
      simp [List.lookup_cons]
    · have hbeq : (k == a) = false := beq_false_of_ne (Ne.symm hak)
      by_cases hct : (t.map Prod.fst).contains k
      · rw [jsObjSet, if_pos (by
          rw [List.map_cons, List.contains_cons, hct, Bool.or_true])]
        rw [jsObjSet, if_pos hct] at ih
        simpa [List.lookup_cons, hak, hbeq] using ih
      · rw [jsObjSet, if_neg (by
          rw [List.map_cons, List.contains_cons, hbeq]
          simpa using hct)]
        rw [jsObjSet, if_neg hct] at ih
        simpa [List.lookup_cons, hak, hbeq] using ih

/-- Leading-slash normalization cannot introduce an `auth/login`
occurrence. -/
lemma strIncludes_normalizePath_auth (p : String)
    (h : strIncludes p "auth/login" = false) :
    strIncludes (normalizePath p) "auth/login" = false := by
  unfold normalizePath
  split
  · exact h
  · obtain ⟨l⟩ := p
    show listContainsSub (("/" ++ String.mk l).data) _ = false
    rw [slash_append_data]
    show listContainsSub ('/' :: l) ("auth/login".data) = false
    unfold listContainsSub
    have h1 : ("auth/login".data).isPrefixOf ('/' :: l) = false := by
      simp [List.isPrefixOf]
    rw [h1]
    simpa [strIncludes] using h

/-- Claim C4 (amended): a successful login whose response owns a `token`
field but no non-empty string `type` field stores a credential whose
kind is the configured default label and whose token is the response's
token; every subsequent `fetch` to a path that does not contain
`auth/login` as a substring carries the header
`Authorization: <kind> <token>`. -/
theorem claim4_theorem : ∀ (o : Options) (r : JSValue) (p : String)
    (opts : Option FetchOpts),
    o.useAuthentication = true →
    jsHasOwn r "token" = true →
    hasNonEmptyStringType r = false →
    strIncludes p "auth/login" = false →
    (loginResolve (construct o).s r).s._token.kind = defaultTokenKind o ∧
    (loginResolve (construct o).s r).s._token.token = jsGet r "token" ∧
    lookupHeader (fetchCall (loginResolve (construct o).s r).s p opts) "Authorization"
      = some (defaultTokenKind o ++ " " ++ jsToString (jsGet r "token")) := by
  intro o r p opts hA hTok hTy hInc
  have hc0 := construct_s_auth o hA
  have hres : loginResolve (construct o).s r
      = { s := { (construct o).s with
            _authenticated := true
            _token := { kind := defaultTokenKind o, token := jsGet r "token" }
            _fetchReady := true
            socket := some () }
          evs := [Event.fetchReadyE], acts := [Action.openSocket] } := by
    unfold loginResolve
    rw [if_neg (by simp [hTok])]
    cases hty : jsGet r "type" with
    | str s =>
      have hs : s = "" := by
        unfold hasNonEmptyStringType at hTy
        rw [hty] at hTy
        simpa using hTy
      subst hs
      simp [hty, hc0, initConn, jsTrim]
    | undefined => simp [hty, hc0, initConn]
    | null => simp [hty, hc0, initConn]
    | bool b => simp [hty, hc0, initConn]
    | num n => simp [hty, hc0, initConn]
    | arr xs => simp [hty, hc0, initConn]
    | obj fs => simp [hty, hc0, initConn]
  rw [hres]
  refine ⟨rfl, rfl, ?_⟩
  have hnorm := strIncludes_normalizePath_auth p hInc
  simp only [fetchCall, lookupHeader]
  rw [if_pos (And.intro trivial hnorm)]
  simp [lookup_jsObjSet]

/-- Claim C4 witness: a login answering only a token stores the default
kind `Bearer`, and a fetch of `/vessels/self` carries
`Authorization: Bearer abc`. -/
theorem claim4_witness :
    (oAuth.useAuthentication = true ∧
     jsHasOwn (JSValue.obj [("token", JSValue.str "abc")]) "token" = true ∧
     hasNonEmptyStringType (JSValue.obj [("token", JSValue.str "abc")]) = false ∧
     strIncludes "/vessels/self" "auth/login" = false) ∧
    ((loginResolve (construct oAuth).s
        (JSValue.obj [("token", JSValue.str "abc")])).s._token.kind
      = defaultTokenKind oAuth ∧
     (loginResolve (construct oAuth).s
        (JSValue.obj [("token", JSValue.str "abc")])).s._token.token
      = jsGet (JSValue.obj [("token", JSValue.str "abc")]) "token" ∧
     lookupHeader (fetchCall (loginResolve (construct oAuth).s
          (JSValue.obj [("token", JSValue.str "abc")])).s "/vessels/self" none)
        "Authorization"
      = some (defaultTokenKind oAuth ++ " "
          ++ jsToString (jsGet (JSValue.obj [("token", JSValue.str "abc")]) "token"))) :=
  ⟨⟨rfl, rfl, rfl, rfl⟩,
   claim4_theorem oAuth (JSValue.obj [("token", JSValue.str "abc")])
     "/vessels/self" none rfl rfl rfl rfl⟩

/-- Claim C4 counterexample: after the very login the claim describes,
the path `/vessels/auth/login` differs from the login path, yet the
assembled request carries NO Authorization header, because the source
tests `path.includes('auth/login')` rather than equality with the login
path — refuting "every subsequent fetch() to a path other than the
login path carries the header". -/
theorem claim4_counterexample :
    (loginResolve (construct oAuth).s
        (JSValue.obj [("token", JSValue.str "abc")])).s._authenticated = true ∧
    ("/vessels/auth/login" : String) ≠ "/auth/login" ∧
    lookupHeader (fetchCall (loginResolve (construct oAuth).s
        (JSValue.obj [("token", JSValue.str "abc")])).s "/vessels/auth/login" none)
      "Authorization" = none :=
  ⟨rfl, by decide, rfl⟩

/-- Claim C2: after `disconnect()` sets the sticky intent on a machine
holding a stream handle, the reconnect invoked by the next transport
close neither opens a stream nor issues a login; it releases the
listeners and leaves no stream handle. -/
theorem claim2_theorem : ∀ c : Conn, c.socket = some () →
    (disconnect c).s.shouldDisconnect = true ∧
    attemptsConnection (disconnect c).acts = false ∧
    attemptsConnection (onWSClose (disconnect c).s).acts = false ∧
    (onWSClose (disconnect c).s).s.socket = none ∧
    (onWSClose (disconnect c).s).s.listenersReleased = true := by
  intro c h
  have hd : ∃ acts, disconnect c
      = { s := { c with shouldDisconnect := true }, evs := [], acts := acts }
      ∧ attemptsConnection acts = false := by
    by_cases hic : c.isConnecting = true
    · exact ⟨[], by simp [disconnect, reconnect, hic], rfl⟩
    · refine ⟨[Action.closeSocket], ?_, rfl⟩
      simp [disconnect, reconnect, hic, h]
  obtain ⟨acts, hd, hacts⟩ := hd
  have hclose :
      attemptsConnection (onWSClose { c with shouldDisconnect := true }).acts = false ∧
      (onWSClose { c with shouldDisconnect := true }).s.socket = none ∧
      (onWSClose { c with shouldDisconnect := true }).s.listenersReleased = true := by
    by_cases hmr : c._retries + 1 = c.options.maxRetries
    · simp [onWSClose, reconnect, cleanupListeners, hmr, attemptsConnection]
    · by_cases hrc : c.options.reconnect = false
      · simp [onWSClose, reconnect, cleanupListeners, hmr, hrc, attemptsConnection]
      · simp [onWSClose, reconnect, cleanupListeners, hmr, hrc, attemptsConnection]
  exact ⟨by rw [hd], by rw [hd]; exact hacts, by rw [hd]; exact hclose.1,
    by rw [hd]; exact hclose.2.1, by rw [hd]; exact hclose.2.2⟩

/-- Claim C2 witness: a connected machine that is told to disconnect
and then observes the transport close ends cleaned up, with no new
connection attempt. -/
theorem claim2_witness :
    ((onWSOpen (construct oNoAuth).s).s.socket = some ()) ∧
    ((disconnect (onWSOpen (construct oNoAuth).s).s).s.shouldDisconnect = true ∧
     attemptsConnection (disconnect (onWSOpen (construct oNoAuth).s).s).acts = false ∧
     attemptsConnection
       (onWSClose (disconnect (onWSOpen (construct oNoAuth).s).s).s).acts = false ∧
     (onWSClose (disconnect (onWSOpen (construct oNoAuth).s).s).s).s.socket = none ∧
     (onWSClose (disconnect (onWSOpen (construct oNoAuth).s).s).s).s.listenersReleased
       = true) :=
  ⟨rfl, claim2_theorem (onWSOpen (construct oNoAuth).s).s rfl⟩

/-- Test whether a driver step is one of the two external calls
(`reconnect()` / `disconnect()`). -/
def isExtCall : Step → Bool
  | .callReconnect => true
  | .callDisconnect => true
  | _ => false

/-- While `isConnecting` is stuck at `true`, any sequence of external
`reconnect()` / `disconnect()` calls leaves the stream handle and the
listener registry untouched, emits nothing, and requests no effect. -/
lemma run_extCalls_stuck (calls : List Step) : ∀ c : Conn,
    c.isConnecting = true → (∀ st ∈ calls, isExtCall st = true) →
    (run c calls).s.isConnecting = true ∧
    (run c calls).s.socket = c.socket ∧
    (run c calls).s.listenersReleased = c.listenersReleased ∧
    (run c calls).evs = [] ∧ (run c calls).acts = [] := by
  induction calls with
  | nil =>
    intro c hic _
    simp [run, hic]
  | cons st rest ih =>
    intro c hic hcalls
    have hst : isExtCall st = true := hcalls st (by simp)
    have hrest : ∀ s ∈ rest, isExtCall s = true := fun s hs =>
      hcalls s (by simp [hs])
    cases st with
    | callReconnect =>
      have hstep : step c Step.callReconnect = { s := c, evs := [], acts := [] } := by
        simp [step, reconnect, hic]
      obtain ⟨a1, a2, a3, a4, a5⟩ := ih c hic hrest
      simp [run, hstep, a1, a2, a3, a4, a5]
    | callDisconnect =>
      have hstep : step c Step.callDisconnect
          = { s := { c with shouldDisconnect := true }, evs := [], acts := [] } := by
        simp [step, disconnect, reconnect, hic]
      obtain ⟨a1, a2, a3, a4, a5⟩ :=
        ih { c with shouldDisconnect := true } hic hrest
      simp [run, hstep, a1, a2, a3, a4, a5]
    | wsOpen => simp [isExtCall] at hst
    | wsError => simp [isExtCall] at hst
    | wsClose => simp [isExtCall] at hst
    | wsMessage now d => simp [isExtCall] at hst
    | loginOk r => simp [isExtCall] at hst
    | loginFail => simp [isExtCall] at hst

/-- Claim C9: with authentication enabled, a failed login exchange
(rejected request, or a response without a `token` field) while no
stream handle exists leaves `isConnecting` stuck at `true`; every
subsequent `reconnect()` / `disconnect()` call then opens no stream,
releases no listener and emits nothing. -/
theorem claim9_theorem : ∀ (o : Options) (r : JSValue) (calls : List Step),
    o.useAuthentication = true →
    jsHasOwn r "token" = false →
    (∀ st ∈ calls, isExtCall st = true) →
    (construct o).s.isConnecting = true ∧
    (construct o).s.socket = none ∧
    (loginReject (construct o).s).s = (construct o).s ∧
    (loginReject (construct o).s).evs = [Event.errorE] ∧
    (loginResolve (construct o).s r).s = (construct o).s ∧
    (loginResolve (construct o).s r).evs = [Event.errorE] ∧
    (run (loginReject (construct o).s).s calls).s.isConnecting = true ∧
    (run (loginReject (construct o).s).s calls).s.socket = none ∧
    (run (loginReject (construct o).s).s calls).s.listenersReleased = false ∧
    (run (loginReject (construct o).s).s calls).evs = [] ∧
    (run (loginReject (construct o).s).s calls).acts = [] := by
  intro o r calls hA hTok hcalls
  have hc0 := construct_s_auth o hA
  have hic : (construct o).s.isConnecting = true := by rw [hc0]
  have hsock : (construct o).s.socket = none := by rw [hc0]; rfl
  have hrel : (construct o).s.listenersReleased = false := by rw [hc0]; rfl
  have hrej : loginReject (construct o).s
      = { s := (construct o).s, evs := [Event.errorE], acts := [] } := rfl
  have hres : loginResolve (construct o).s r
      = { s := (construct o).s, evs := [Event.errorE], acts := [] } := by
    unfold loginResolve
    rw [if_pos (by simp [hTok])]
  obtain ⟨a1, a2, a3, a4, a5⟩ := run_extCalls_stuck calls (construct o).s hic hcalls
  refine ⟨hic, hsock, rfl, rfl, by rw [hres], by rw [hres], ?_, ?_, ?_, ?_, ?_⟩
  · exact a1
  · show (run (construct o).s calls).s.socket = none
    rw [a2]; exact hsock
  · show (run (construct o).s calls).s.listenersReleased = false
    rw [a3]; exact hrel
  · exact a4
  · exact a5

/-- Claim C9 witness: a concrete failed login under the authentication
fixture, followed by a disconnect and two reconnect calls, stays stuck
and silent. -/
theorem claim9_witness :
    (oAuth.useAuthentication = true ∧
     jsHasOwn JSValue.null "token" = false ∧
     (∀ st ∈ [Step.callDisconnect, Step.callReconnect, Step.callReconnect],
        isExtCall st = true)) ∧
    ((construct oAuth).s.isConnecting = true ∧
     (construct oAuth).s.socket = none ∧
     (loginReject (construct oAuth).s).s = (construct oAuth).s ∧
     (loginReject (construct oAuth).s).evs = [Event.errorE] ∧
     (loginResolve (construct oAuth).s JSValue.null).s = (construct oAuth).s ∧
     (loginResolve (construct oAuth).s JSValue.null).evs = [Event.errorE] ∧
     (run (loginReject (construct oAuth).s).s
        [Step.callDisconnect, Step.callReconnect, Step.callReconnect]).s.isConnecting
       = true ∧
     (run (loginReject (construct oAuth).s).s
        [Step.callDisconnect, Step.callReconnect, Step.callReconnect]).s.socket = none ∧
     (run (loginReject (construct oAuth).s).s
        [Step.callDisconnect, Step.callReconnect,
          Step.callReconnect]).s.listenersReleased = false ∧
     (run (loginReject (construct oAuth).s).s
        [Step.callDisconnect, Step.callReconnect, Step.callReconnect]).evs = [] ∧
     (run (loginReject (construct oAuth).s).s
        [Step.callDisconnect, Step.callReconnect, Step.callReconnect]).acts = []) :=
  ⟨⟨rfl, rfl, by decide⟩,
   claim9_theorem oAuth JSValue.null
     [Step.callDisconnect, Step.callReconnect, Step.callReconnect] rfl rfl (by decide)⟩

/-- Trace of `n` consecutive transport close events. -/
def closeSteps (n : Nat) : List Step :=
  List.replicate n Step.wsClose

/-- Machine state between failed connection attempts under disabled
authentication: stream pending (`socket` live, `isConnecting`), fetch
readiness flagged, `k` failures counted. -/
def midState (o : Options) (k : Nat) : Conn :=
  { initConn o with
    isConnecting := true
    _fetchReady := true
    socket := some ()
    _retries := k }

/-- Signals of `n` close-and-reopen rounds. -/
def evRep : Nat → List Event
  | 0 => []
  | n + 1 => Event.disconnectE :: Event.fetchReadyE :: evRep n

/-- Effects of `n` close-and-reopen rounds. -/
def acRep (n : Nat) : List Action :=
  List.replicate n Action.openSocket

/-- Construction under disabled authentication opens the stream at once. -/
lemma construct_noauth (o : Options) (h : o.useAuthentication = false) :
    construct o
      = { s := midState o 0
          evs := [Event.fetchReadyE]
          acts := [Action.openSocket] } := by
  obtain ⟨hn, pt, tls, ver, ua, rc, mr, btd, un, pw⟩ := o
  cases h
  rfl

/-- A close event whose incremented counter misses `maxRetries` reopens
the stream. -/
lemma step_close_mid (o : Options) (k : Nat) (hA : o.useAuthentication = false)
    (hR : o.reconnect = true) (hk : ¬ (k + 1 = o.maxRetries)) :
    step (midState o k) Step.wsClose
      = { s := midState o (k + 1)
          evs := [Event.disconnectE, Event.fetchReadyE]
          acts := [Action.openSocket] } := by
  obtain ⟨hn, pt, tls, ver, ua, rc, mr, btd, un, pw⟩ := o
  cases hA
  cases hR
  simp only [step, onWSClose, reconnect, midState, initConn] at hk ⊢
  simp [hk]

/-- A close event whose incremented counter exactly equals `maxRetries`
emits the terminal signal and releases the listeners, requesting no
effect. -/
lemma step_close_last (o : Options) (k : Nat) (hk : k + 1 = o.maxRetries) :
    step (midState o k) Step.wsClose
      = { s := { initConn o with
            _retries := k + 1
            _fetchReady := true
            listenersReleased := true }
          evs := [Event.disconnectE, Event.hitMaxRetriesE]
          acts := [] } := by
  simp only [step, onWSClose, reconnect, cleanupListeners, midState, initConn] at hk ⊢
  simp [hk]

/-- Running an appended trace composes the final states and
concatenates the signal and effect logs. -/
lemma run_append (c : Conn) (l1 l2 : List Step) :
    run c (l1 ++ l2)
      = { s := (run (run c l1).s l2).s
          evs := (run c l1).evs ++ (run (run c l1).s l2).evs
          acts := (run c l1).acts ++ (run (run c l1).s l2).acts } := by
  induction l1 generalizing c with
  | nil => simp [run]
  | cons st rest ih => simp [run, ih]

/-- As long as the counter stays below `maxRetries`, each close reopens
the stream and the failure count advances one per close. -/
lemma run_closes (o : Options) (hA : o.useAuthentication = false)
    (hR : o.reconnect = true) :
    ∀ (j k : Nat), k + j < o.maxRetries →
    run (midState o k) (closeSteps j)
      = { s := midState o (k + j), evs := evRep j, acts := acRep j } := by
  intro j
  induction j with
  | zero =>
    intro k hkj
    simp [closeSteps, run, evRep, acRep]
  | succ n ih =>
    intro k hkj
    have hk : ¬ (k + 1 = o.maxRetries) := by omega
    have hrest := ih (k + 1) (by omega)
    have harith : k + 1 + n = k + (n + 1) := by omega
    rw [harith] at hrest
    have hstep := step_close_mid o k hA hR hk
    show run (midState o k) (Step.wsClose :: closeSteps n) = _
    simp [run, hstep, hrest, evRep, acRep, List.replicate_succ]

/-- Reopen rounds never emit the terminal signal. -/
lemma countHitMax_evRep (n : Nat) : countHitMax (evRep n) = 0 := by
  induction n with
  | zero => rfl
  | succ m ih => simp [evRep, countHitMax] at ih ⊢; exact ih

/-- The terminal-signal count is additive over trace concatenation. -/
lemma countHitMax_append (a b : List Event) :
    countHitMax (a ++ b) = countHitMax a + countHitMax b := by
  simp [countHitMax, List.filter_append]

/-- Claim C1 counterexample: with `maxRetries = 1`, one transport error
(followed by the transport's own close) never triggers `hitMaxRetries`:
the error's reconnect is blocked by the re-entrancy guard, the close
pushes the counter past `maxRetries`, the exact-equality comparison
fails forever, listeners stay attached and a further reconnect attempt
opens a new stream — refuting the claim as stated for N = 1. -/
theorem claim1_counterexample :
    (let o : Options := { oNoAuth with maxRetries := 1 }
     let c0 := construct o
     let r := run c0.s [Step.wsError, Step.wsClose]
     o.maxRetries = 1 ∧
     countHitMax (c0.evs ++ r.evs) = 0 ∧
     r.s.listenersReleased = false ∧
     r.s.socket = some () ∧
     r.s._retries = 2 ∧
     attemptsConnection r.acts = true) :=
  ⟨rfl, rfl, rfl, rfl, rfl, rfl⟩

/-- Claim C1 (amended): with authentication disabled and reconnection
enabled, after exactly `N ≥ 1` transport closures — with no error
events, so that each reconnect attempt passes the re-entrancy and
live-socket guards and reaches the exact-equality comparison against
`maxRetries` — the reconnect invoked by the N-th close emits
`hitMaxRetries` exactly once over the whole trace, releases all
listeners, leaves no stream handle and requests no further connection
attempt (exactly the N−1 earlier reopenings appear in the effect log). -/
theorem claim1_theorem : ∀ (o : Options) (N : Nat),
    o.useAuthentication = false → o.reconnect = true →
    o.maxRetries = N → 1 ≤ N →
    countHitMax ((construct o).evs ++ (run (construct o).s (closeSteps N)).evs) = 1 ∧
    (run (construct o).s (closeSteps N)).evs
      = evRep (N - 1) ++ [Event.disconnectE, Event.hitMaxRetriesE] ∧
    (run (construct o).s (closeSteps N)).s.listenersReleased = true ∧
    (run (construct o).s (closeSteps N)).s.socket = none ∧
    (run (construct o).s (closeSteps N)).s.isConnecting = false ∧
    (run (construct o).s (closeSteps N)).acts = acRep (N - 1) := by
  intro o N hA hR hM hN
  obtain ⟨m, rfl⟩ : ∃ m, N = m + 1 := ⟨N - 1, by omega⟩
  have hcon := construct_noauth o hA
  have hsplit : closeSteps (m + 1) = closeSteps m ++ [Step.wsClose] :=
    List.replicate_succ' m Step.wsClose
  have hrun1 := run_closes o hA hR m 0 (by omega)
  rw [Nat.zero_add] at hrun1
  have hlast := step_close_last o m (by rw [hM])
  have hsingle : run (midState o m) [Step.wsClose]
      = { s := { initConn o with
            _retries := m + 1
            _fetchReady := true
            listenersReleased := true }
          evs := [Event.disconnectE, Event.hitMaxRetriesE]
          acts := [] } := by
    simp [run, hlast]
  have hfull : run (construct o).s (closeSteps (m + 1))
      = { s := { initConn o with
            _retries := m + 1
            _fetchReady := true
            listenersReleased := true }
          evs := evRep m ++ [Event.disconnectE, Event.hitMaxRetriesE]
          acts := acRep m } := by
    rw [hcon]
    show run (midState o 0) (closeSteps (m + 1)) = _
    rw [hsplit, run_append, hrun1]
    simp [hsingle]
  rw [hfull, hcon]
  refine ⟨?_, by simp, rfl, rfl, rfl, by simp⟩
  rw [countHitMax_append, countHitMax_append, countHitMax_evRep]
  show countHitMax [Event.fetchReadyE]
      + (0 + countHitMax [Event.disconnectE, Event.hitMaxRetriesE]) = 1
  decide

/-- Claim C1 witness: with `maxRetries = 2`, two clean closes end in the
terminal signal, released listeners and no further attempt. -/
theorem claim1_witness :
    (oNoAuth.useAuthentication = false ∧ oNoAuth.reconnect = true ∧
     oNoAuth.maxRetries = 2 ∧ 1 ≤ 2) ∧
    (countHitMax ((construct oNoAuth).evs
        ++ (run (construct oNoAuth).s (closeSteps 2)).evs) = 1 ∧
     (run (construct oNoAuth).s (closeSteps 2)).evs
       = evRep 1 ++ [Event.disconnectE, Event.hitMaxRetriesE] ∧
     (run (construct oNoAuth).s (closeSteps 2)).s.listenersReleased = true ∧
     (run (construct oNoAuth).s (closeSteps 2)).s.socket = none ∧
     (run (construct oNoAuth).s (closeSteps 2)).s.isConnecting = false ∧
     (run (construct oNoAuth).s (closeSteps 2)).acts = acRep 1) :=
  ⟨⟨rfl, rfl, rfl, by decide⟩, claim1_theorem oNoAuth 2 rfl rfl rfl (by decide)⟩

end SignalK
